import Mathlib

/-!
# Verification of the Ache-o-Meter forecast analysis engine

Shallow embedding of `src/forecast.py` (the forecast analysis engine) and
`src/database.py` (the subscriber store), together with theorems settling the
spec claims about them.

Modelling conventions:

* Python floats are modelled as `ℚ`.  Every constant appearing in the source
  (`0.750062`, `1.5`, the thresholds) is exactly representable, and no claim
  depends on a comparison closer to a threshold than float rounding error.
* A timestamp string is represented by the outcome of
  `datetime.fromisoformat` on it (`TimeVal`): `aware t` — parses to an
  offset-aware instant `t` (epoch seconds); `naive t` — parses, but is
  offset-naive, so comparing it against the offset-aware `now` raises
  `TypeError`; `malformed` — `fromisoformat` raises `ValueError`.
* Fallible Python code is embedded in `Except PyErr`; a `.error e` value is an
  uncaught Python exception of class `e` propagating out of the embedded code.
* The merged data dict of `get_forecast_data` is the structure `Forecast`;
  each optional field is a key the adapters may or may not have contributed
  (`data['hourly']` on an absent key raises `KeyError`, embedded by `getKey`).
* `datetime.now().astimezone()` (rules 1 and 3) and
  `datetime.utcnow().replace(tzinfo=pytz.UTC)` (rule 4) denote the same
  instant `now`; the microseconds between the two clock reads are irrelevant
  to every claim.
-/

namespace AcheOMeter

/-- The Python exception classes that the code of `forecast.py` can raise or
catch: `KeyError` (missing dict key), `IndexError` (list index out of range),
`TypeError` (comparing offset-naive and offset-aware datetimes),
`ValueError` (`float()` or `datetime.fromisoformat` on an unparseable
string). -/
inductive PyErr
  | keyError
  | indexError
  | typeError
  | valueError
deriving DecidableEq

/-- Result of a piece of Python code: a value, or an uncaught exception. -/
abbrev Exc (α : Type) := Except PyErr α

/-- A timestamp string, represented by the outcome of
`datetime.fromisoformat` on it (see the module docstring). -/
inductive TimeVal
  | aware (t : Int)
  | naive (t : Int)
  | malformed
deriving DecidableEq

/-- The `data['hourly']` sub-dict of an Open-Meteo response; each field is an
optionally present key. -/
structure HourlyData where
  time : Option (List TimeVal)
  surface_pressure : Option (List ℚ)
  relative_humidity_2m : Option (List ℚ)
deriving DecidableEq

/-- The `data['daily']` sub-dict of an Open-Meteo response. -/
structure DailyData where
  temperature_2m_max : Option (List ℚ)
deriving DecidableEq

/-- One JSON string cell of a NOAA row, represented by the outcomes of the two
parses `forecast.py` may apply to it: `asFloat` is the result of Python
`float(cell)` (`none` means `float` raises `ValueError`), `asTime` the result
of `datetime.fromisoformat(cell.replace('Z', '+00:00'))`. -/
structure Cell where
  asFloat : Option ℚ
  asTime : TimeVal
deriving DecidableEq

/-- One processed geomagnetic entry, as built by `get_noaa_geo_data`
(forecast.py line 61): `{'time_tag': item[0], 'kp_value': float(item[1]),
'observation_status': item[2]}`. -/
structure GeoEntry where
  time_tag : TimeVal
  kp_value : ℚ
  observation_status : Cell
deriving DecidableEq

/-- The merged data dict returned by `get_forecast_data` (forecast.py line
25): `{**weather_data, **geo_data, **solar_data}`.  Each field is a key that
is present iff the corresponding adapter contributed it. -/
structure Forecast where
  hourly : Option HourlyData
  daily : Option DailyData
  geo_forecast : Option (List GeoEntry)
  solar_wind_speed : Option (List ℚ)
deriving DecidableEq

/-- Severity levels of a finding; rendered by `sevName` as the Russian strings
the source stores in the `risks` tuples. -/
inductive Severity
  | low
  | medium
  | high
deriving DecidableEq

instance : Inhabited Severity := ⟨.low⟩

/-- The severity string stored in a risk tuple (forecast.py lines 118-181). -/
def sevName : Severity → String
  | .high => "Высокий"
  | .medium => "Средний"
  | .low => "Низкий"

/-- `risk_map = {"Высокий": 2, "Средний": 1, "Низкий": 0}`
(forecast.py line 192). -/
def risk_map : Severity → Nat
  | .high => 2
  | .medium => 1
  | .low => 0

/-- One `(severity, description)` tuple appended to `risks`. -/
abbrev Risk := Severity × String

/-- Python dict subscript `d[k]`: the value, or `KeyError`. -/
def getKey {α : Type} : Option α → Exc α
  | none => .error .keyError
  | some a => .ok a

/-- Python list subscript `l[i]` for a nonnegative index: the element, or
`IndexError`. -/
def getIndex {α : Type} (l : List α) (i : Nat) : Exc α :=
  match l[i]? with
  | none => .error .indexError
  | some a => .ok a

/-- Python `round()`: nearest integer, ties to even. -/
def pyRound (q : ℚ) : ℤ :=
  let f : ℤ := ⌊q⌋
  let r : ℚ := q - f
  if r < 1/2 then f
  else if 1/2 < r then f + 1
  else if 2 ∣ f then f else f + 1

/-- Python `int()` on a float: truncation toward zero. -/
def pyTrunc (q : ℚ) : ℤ := q.num.tdiv q.den

/-- `hpa_to_mmhg = 0.750062` (forecast.py line 114). -/
def hpa_to_mmhg : ℚ := 750062/1000000

/-- `timedelta(hours=24)` in seconds. -/
def day_secs : Int := 86400

/-- The chained comparison `lo <= datetime.fromisoformat(t) < hi` of the
window list comprehensions (forecast.py lines 109-110, 144): a malformed
timestamp raises `ValueError`; a naive one compares against the offset-aware
bounds and raises `TypeError`. -/
def inWindow (lo hi : Int) : TimeVal → Exc Bool
  | .malformed => .error .valueError
  | .naive _ => .error .typeError
  | .aware t => .ok (decide (lo ≤ t) && decide (t < hi))

/-- The list comprehension
`[p for t, p in zip(times, values) if lo <= datetime.fromisoformat(t) < hi]`:
elements are examined left to right and the first failing timestamp aborts the
whole comprehension with its exception. -/
def filterWindow (lo hi : Int) : List (TimeVal × ℚ) → Exc (List ℚ)
  | [] => .ok []
  | (t, p) :: rest => do
      let keep ← inWindow lo hi t
      let tail ← filterWindow lo hi rest
      .ok (if keep then p :: tail else tail)

/-- Python `max` on a (nonempty, by the caller's guard) list. -/
def listMax : List ℚ → ℚ
  | [] => 0
  | x :: xs => xs.foldl max x

/-- Python `min` on a (nonempty, by the caller's guard) list. -/
def listMin : List ℚ → ℚ
  | [] => 0
  | x :: xs => xs.foldl min x

/-- Rule 1 — atmospheric pressure (forecast.py lines 106-121, the body of the
first `try`).  Any exception raised here propagates; the narrow
`except (KeyError, IndexError, TypeError)` around it is `catchNarrow`. -/
def pressureRule (data : Forecast) (now : Int) : Exc (Option Risk) := do
  let hourly ← getKey data.hourly
  let hourly_pressure ← getKey hourly.surface_pressure
  let times ← getKey hourly.time
  let past_24h_pressure ← filterWindow (now - day_secs) now (times.zip hourly_pressure)
  let future_24h_pressure ← filterWindow now (now + day_secs) (times.zip hourly_pressure)
  if past_24h_pressure ≠ [] ∧ future_24h_pressure ≠ [] then
    let pressure_change_24h := (listMax future_24h_pressure - listMin past_24h_pressure) * hpa_to_mmhg
    if 7 < |pressure_change_24h| then
      .ok (some (.high, "очень резкий перепад давления (изменение на " ++
        toString (pyRound pressure_change_24h) ++ " мм рт. ст. за сутки)"))
    else if 3 < |pressure_change_24h| then
      .ok (some (.medium, "заметный перепад давления (изменение на " ++
        toString (pyRound pressure_change_24h) ++ " мм рт. ст. за сутки)"))
    else .ok none
  else .ok none

/-- Rule 2 — temperature swing (forecast.py lines 126-135). -/
def temperatureRule (data : Forecast) : Exc (Option Risk) := do
  let daily_temp ← getKey data.daily
  let tmax ← getKey daily_temp.temperature_2m_max
  let today_max ← getIndex tmax 1
  let yesterday_max ← getIndex tmax 0
  let temp_diff := |today_max - yesterday_max|
  if 10 < temp_diff then
    .ok (some (.high, "очень резкое изменение температуры (на " ++
      toString (pyRound temp_diff) ++ "°C по сравнению со вчерашним днём)"))
  else if 5 < temp_diff then
    .ok (some (.medium, "заметное изменение температуры (на " ++
      toString (pyRound temp_diff) ++ "°C по сравнению со вчерашним днём)"))
  else .ok none

/-- Rule 3 — humidity (forecast.py lines 141-150). -/
def humidityRule (data : Forecast) (now : Int) : Exc (Option Risk) := do
  let hourly ← getKey data.hourly
  let hourly_humidity ← getKey hourly.relative_humidity_2m
  let times ← getKey hourly.time
  let past_24h_humidity ← filterWindow (now - day_secs) now (times.zip hourly_humidity)
  if past_24h_humidity ≠ [] then
    let avg_humidity := past_24h_humidity.sum / (past_24h_humidity.length : ℚ)
    if 85 < avg_humidity then .ok (some (.low, "очень высокая влажность воздуха"))
    else if avg_humidity < 30 then .ok (some (.low, "очень низкая влажность воздуха"))
    else .ok none
  else .ok none

/-- The `for forecast in geo_forecast` loop of rule 4 (forecast.py lines
160-163): parses each entry's `time_tag` and updates
`max_kp` when `forecast_time < future_limit and forecast['kp_value'] > max_kp`. -/
def kpLoop (future_limit : Int) : List GeoEntry → ℚ → Exc ℚ
  | [], max_kp => .ok max_kp
  | e :: rest, max_kp =>
      match e.time_tag with
      | .malformed => .error .valueError
      | .naive _ => .error .typeError
      | .aware t =>
          kpLoop future_limit rest
            (if t < future_limit ∧ max_kp < e.kp_value then e.kp_value else max_kp)

/-- Rule 4 — geomagnetic activity (forecast.py lines 156-168, the body of the
fourth `try`; its `except Exception` is `catchAll`). -/
def geomagneticRule (data : Forecast) (now : Int) : Exc (Option Risk) := do
  let geo_forecast := data.geo_forecast.getD []
  let max_kp ← kpLoop (now + day_secs) geo_forecast 0
  if 5 ≤ max_kp then
    .ok (some (.high, "ожидается магнитная буря (Kp-индекс до " ++
      toString (pyTrunc max_kp) ++ ")"))
  else if 3 ≤ max_kp then
    .ok (some (.medium, "повышенная геомагнитная активность (Kp-индекс до " ++
      toString (pyTrunc max_kp) ++ ")"))
  else .ok none

/-- Rule 5 — solar wind (forecast.py lines 175-181), on the speed list.
`solar_wind[-12:]` is the last 12 elements, used only when the list has at
least 12; otherwise `recent_avg = 0`. -/
def solarRuleOn (solar_wind : List ℚ) : Option Risk :=
  if solar_wind ≠ [] then
    let recent_avg : ℚ :=
      if 12 ≤ solar_wind.length then (solar_wind.drop (solar_wind.length - 12)).sum / 12 else 0
    let historical_avg : ℚ := solar_wind.sum / (solar_wind.length : ℚ)
    if historical_avg * (3/2) < recent_avg then some (.low, "усиление солнечного ветра")
    else none
  else none

/-- Rule 5 applied to `data.get('solar_wind_speed', [])`.  In the typed model
this rule cannot raise, making its `except Exception` wrapper vacuous. -/
def solarRule (data : Forecast) : Option Risk :=
  solarRuleOn (data.solar_wind_speed.getD [])

/-- `except (KeyError, IndexError, TypeError)` around rules 1-3: those three
exception classes are swallowed (the rule contributes no finding); any other
exception — in particular `ValueError` — propagates. -/
def catchNarrow (r : Exc (Option Risk)) : Exc (Option Risk) :=
  match r with
  | .error .keyError => .ok none
  | .error .indexError => .ok none
  | .error .typeError => .ok none
  | other => other

/-- `except Exception` around rules 4-5: every exception is swallowed. -/
def catchAll (r : Exc (Option Risk)) : Option Risk :=
  match r with
  | .ok v => v
  | .error _ => none

/-- The rule-evaluation part of `analyze_data_and_form_message` (forecast.py
lines 102-184): the five rules run in order, each appending at most one
finding to `risks`; an exception escaping a rule's `except` clause aborts the
whole evaluation. -/
def analyzeRisks (data : Forecast) (now : Int) : Exc (List Risk) := do
  let r1 ← catchNarrow (pressureRule data now)
  let r2 ← catchNarrow (temperatureRule data)
  let r3 ← catchNarrow (humidityRule data now)
  let r4 := catchAll (geomagneticRule data now)
  let r5 := solarRule data
  .ok (r1.toList ++ r2.toList ++ r3.toList ++ r4.toList ++ r5.toList)

/-! ## Message composition (forecast.py lines 187-209) -/

/-- Stable insertion of one risk into a descending-sorted accumulator: the new
element goes after every element whose `risk_map` key is ≥ its own. -/
def insertDesc (x : Risk) : List Risk → List Risk
  | [] => [x]
  | y :: ys => if risk_map y.1 < risk_map x.1 then x :: y :: ys else y :: insertDesc x ys

/-- `risks.sort(key=lambda x: risk_map[x[0]], reverse=True)` (forecast.py line
193).  Python's sort is stable, and `reverse=True` keeps equal-key elements in
their original order; any stable descending sort computes the same list, here
realised as a left fold of stable insertions. -/
def pySortDesc (l : List Risk) : List Risk :=
  l.foldl (fun acc x => insertDesc x acc) []

/-- The three title templates keyed by the highest severity present
(forecast.py lines 197-202). -/
def titleFor : Severity → String
  | .high => "РИСК ВЫСОКИЙ. Ожидаются значительные изменения в погоде. 😔"
  | .medium => "РИСК СРЕДНИЙ. Возможны изменения в самочувствии. 😟"
  | .low => "РИСК НЕБОЛЬШОЙ. Есть некоторые факторы, на которые стоит обратить внимание. 🤔"

/-- `html.escape` on one character (quote=True default: `&`, `<`, `>`, `"` and
the apostrophe are replaced). -/
def escChar (c : Char) : String :=
  if c = '&' then "&amp;"
  else if c = '<' then "&lt;"
  else if c = '>' then "&gt;"
  else if c = '"' then "&quot;"
  else if c = '\'' then "&#x27;"
  else String.singleton c

/-- `html.escape(s)`: the successive `str.replace` calls amount to this
per-character map. -/
def htmlEscape (s : String) : String :=
  String.join (s.data.map escChar)

/-- One rendered finding line (forecast.py line 206). -/
def renderLine (r : Risk) : String :=
  "• <b>" ++ sevName r.1 ++ " риск:</b> " ++ htmlEscape r.2 ++ "\n"

/-- The fixed positive message returned when no rule fired (forecast.py line
189). -/
def positiveMessage : String :=
  "Прогноз благоприятный. Никаких значительных метеофакторов, влияющих на самочувствие, не ожидается. ✨"

/-- The fixed fallback returned when the merged data dict is empty
(forecast.py line 100). -/
def unavailableMessage : String :=
  "Не удалось получить данные для прогноза. Попробуем позже. 🤷‍♂️"

/-- The fixed call-to-action suffix (forecast.py line 208). -/
def infoSuffix : String :=
  "\nЧтобы узнать подробнее о каждом факторе, используй команду /info."

/-- The fixed text between the title and the finding lines (forecast.py line
204). -/
def headerAfterTitle : String := "</b>\n\nВот что может повлиять на самочувствие:\n"

/-- The message-forming tail of `analyze_data_and_form_message` (forecast.py
lines 188-209): empty `risks` gives the positive message; otherwise the risks
are sorted descending by severity, the title keyed by the first (highest)
severity, and one line rendered per finding. -/
def formMessage (risks : List Risk) : String :=
  if risks = [] then positiveMessage
  else
    let sorted := pySortDesc risks
    let highest := sorted.headI.1
    "<b>" ++ (titleFor highest ++ (headerAfterTitle ++
      (String.join (sorted.map renderLine) ++ infoSuffix)))

/-- `if not data:` (forecast.py line 99): the merged dict is empty iff no
adapter contributed any key. -/
def isEmptyData (data : Forecast) : Bool :=
  data.hourly.isNone && data.daily.isNone && data.geo_forecast.isNone &&
    data.solar_wind_speed.isNone

/-- `analyze_data_and_form_message` (forecast.py lines 95-209): the fixed
unavailable message on an empty dict, otherwise rule evaluation followed by
message composition; an exception escaping a rule escapes the whole
function. -/
def analyze_data_and_form_message (data : Forecast) (now : Int) : Exc String :=
  if isEmptyData data then .ok unavailableMessage
  else (analyzeRisks data now).map formMessage

/-! ## Source adapters and aggregation (forecast.py lines 16-68) -/

/-- The fields the Open-Meteo adapter contributes on success (a successful
response always carries both requested blocks). -/
structure WeatherPart where
  hourly : HourlyData
  daily : DailyData
deriving DecidableEq

/-- The dict merge `{**weather_data, **geo_data, **solar_data}` (forecast.py
line 25); an adapter that returned `{}` leaves its keys absent. -/
def mergeData (w : Option WeatherPart) (g : Option (List GeoEntry))
    (s : Option (List ℚ)) : Forecast :=
  { hourly := w.map WeatherPart.hourly
    daily := w.map WeatherPart.daily
    geo_forecast := g
    solar_wind_speed := s }

/-- `get_forecast_data` (forecast.py lines 16-25).  Each argument is one
adapter's outcome: `.ok (some _)` — success; `.ok none` — the adapter caught
an `aiohttp.ClientError` and returned `{}` (Unavailable); `.error e` — an
exception of another class escaped the adapter, and `asyncio.gather`
re-raises it, so no snapshot is produced. -/
def get_forecast_data (w : Exc (Option WeatherPart)) (g : Exc (Option (List GeoEntry)))
    (s : Exc (Option (List ℚ))) : Exc Forecast := do
  let weather_data ← w
  let geo_data ← g
  let solar_data ← s
  .ok (mergeData weather_data geo_data solar_data)

/-- Outcome of the NOAA geomagnetic HTTP request: a network/status error
(`aiohttp.ClientError`, caught at forecast.py line 66), or a JSON body, a list
of rows of string cells. -/
inductive GeoFetch
  | clientError
  | response (rows : List (List Cell))

/-- The list comprehension of `get_noaa_geo_data` (forecast.py lines 60-63)
over the rows after the discarded header: rows shorter than 3 are skipped by
the `if len(item) >= 3` guard; on each kept row `float(item[1])` either
yields the kp value or raises `ValueError`, aborting the whole
comprehension. -/
def processGeoRows : List (List Cell) → Exc (List GeoEntry)
  | [] => .ok []
  | row :: rest =>
      if h : 3 ≤ row.length then
        match (row.get ⟨1, by omega⟩).asFloat with
        | none => .error .valueError
        | some kp => do
            let tail ← processGeoRows rest
            .ok ({ time_tag := (row.get ⟨0, by omega⟩).asTime
                   kp_value := kp
                   observation_status := row.get ⟨2, by omega⟩ } :: tail)
      else processGeoRows rest

/-- `get_noaa_geo_data` (forecast.py lines 50-68): a caught
`aiohttp.ClientError` yields `{}`; a body is parsed by the comprehension with
its first row (`data[1:]`) discarded; any exception of another class — such
as the comprehension's `ValueError` — escapes to the caller. -/
def get_noaa_geo_data : GeoFetch → Exc (Option (List GeoEntry))
  | .clientError => .ok none
  | .response rows => (processGeoRows (rows.drop 1)).map some

/-! ## Subscriber store (database.py) -/

/-- One row of the `users` table (database.py lines 13-24). -/
structure UserRec where
  user_id : Int
  chat_id : Int
  city : String
  lat : ℚ
  lon : ℚ
  timezone : String
  is_active : Int
  notification_time : String
deriving DecidableEq

/-- The `ON CONFLICT(user_id) DO UPDATE SET` clause of `add_or_update_user`
(database.py lines 39-48) applied to one row: a row with the conflicting
`user_id` gets the new city/lat/lon/timezone and `is_active=1`; `chat_id` and
`notification_time` are not in the SET list and stay unchanged. -/
def upsertRow (uid : Int) (city : String) (lat lon : ℚ) (tz : String)
    (r : UserRec) : UserRec :=
  if r.user_id = uid then
    { r with city := city, lat := lat, lon := lon, timezone := tz, is_active := 1 }
  else r

/-- `add_or_update_user` (database.py lines 31-54) on the table as a list of
rows (`user_id` is the primary key): insert with `is_active=1` and the
`notification_time` column default `'08:00'`, or update on conflict. -/
def add_or_update_user (db : List UserRec) (uid cid : Int) (city : String)
    (lat lon : ℚ) (tz : String) : List UserRec :=
  if db.any (fun r => r.user_id == uid) then
    db.map (upsertRow uid city lat lon tz)
  else
    db ++ [{ user_id := uid, chat_id := cid, city := city, lat := lat, lon := lon,
             timezone := tz, is_active := 1, notification_time := "08:00" }]

deriving instance DecidableEq for Except

/-! ## General lemmas about the embedded evaluator -/

theorem excBind_ok {α β : Type} (a : α) (f : α → Exc β) :
    ((Except.ok a : Exc α) >>= f) = f a := rfl

theorem excBind_error {α β : Type} (e : PyErr) (f : α → Exc β) :
    ((Except.error e : Exc α) >>= f) = Except.error e := rfl

/-- The only exception class that passes through the narrow
`except (KeyError, IndexError, TypeError)` of rules 1-3 is `ValueError`. -/
theorem catchNarrow_error {r : Exc (Option Risk)} {e : PyErr}
    (h : catchNarrow r = .error e) : e = .valueError := by
  cases r with
  | ok v => simp [catchNarrow] at h
  | error e' =>
    cases e' with
    | keyError => simp [catchNarrow] at h
    | indexError => simp [catchNarrow] at h
    | typeError => simp [catchNarrow] at h
    | valueError => injection h with h2; exact h2.symm

theorem catchNarrow_ok_of_ne_value {r : Exc (Option Risk)}
    (hne : r ≠ .error .valueError) : ∃ v, catchNarrow r = .ok v := by
  cases r with
  | ok v => exact ⟨v, rfl⟩
  | error e' =>
    cases e' with
    | keyError => exact ⟨none, rfl⟩
    | indexError => exact ⟨none, rfl⟩
    | typeError => exact ⟨none, rfl⟩
    | valueError => exact absurd rfl hne

/-- A window comprehension fails with `TypeError` (a naive timestamp compared
against the aware `now`), or with `ValueError`, in which case some timestamp
in the zipped list is malformed. -/
theorem filterWindow_error_cases {lo hi : Int} :
    ∀ (ps : List (TimeVal × ℚ)) (e : PyErr), filterWindow lo hi ps = .error e →
      e = .typeError ∨ (e = .valueError ∧ ∃ p ∈ ps, p.1 = TimeVal.malformed) := by
  intro ps
  induction ps with
  | nil => intro e h; simp [filterWindow] at h
  | cons p rest ih =>
    intro e h
    obtain ⟨t, q⟩ := p
    cases t with
    | malformed =>
      have hs : filterWindow lo hi ((TimeVal.malformed, q) :: rest) = .error .valueError := by
        simp [filterWindow, inWindow, excBind_error]
      rw [hs] at h
      injection h with h2
      exact Or.inr ⟨h2.symm, ⟨(TimeVal.malformed, q), List.mem_cons_self _ _, rfl⟩⟩
    | naive tt =>
      have hs : filterWindow lo hi ((TimeVal.naive tt, q) :: rest) = .error .typeError := by
        simp [filterWindow, inWindow, excBind_error]
      rw [hs] at h
      injection h with h2
      exact Or.inl h2.symm
    | aware tt =>
      cases hrest : filterWindow lo hi rest with
      | error e' =>
        have hs : filterWindow lo hi ((TimeVal.aware tt, q) :: rest) = .error e' := by
          simp [filterWindow, inWindow, excBind_ok, excBind_error, hrest]
        rw [hs] at h
        injection h with h2
        subst h2
        rcases ih _ hrest with h1 | ⟨h2', p', hp', hm⟩
        · exact Or.inl h1
        · exact Or.inr ⟨h2', p', List.mem_cons_of_mem _ hp', hm⟩
      | ok tail =>
        simp only [filterWindow, inWindow, excBind_ok, excBind_error, hrest] at h
        simp at h

/-- The list of hourly timestamps of a snapshot (`[]` when the key chain is
absent). -/
def hourlyTimes (data : Forecast) : List TimeVal :=
  (data.hourly.bind HourlyData.time).getD []

/-- No hourly timestamp string is unparseable. -/
abbrev noMalformedHourly (data : Forecast) : Prop :=
  ∀ t ∈ hourlyTimes data, t ≠ TimeVal.malformed

theorem pressureRule_ne_value {data : Forecast} {now : Int}
    (h : noMalformedHourly data) : pressureRule data now ≠ .error .valueError := by
  intro hv
  cases hh : data.hourly with
  | none => rw [pressureRule, hh] at hv; simp [getKey, excBind_error] at hv
  | some hourly =>
    cases hp : hourly.surface_pressure with
    | none => rw [pressureRule, hh] at hv; simp [getKey, hp, excBind_ok, excBind_error] at hv
    | some pressures =>
      cases htm : hourly.time with
      | none => rw [pressureRule, hh] at hv; simp [getKey, hp, htm, excBind_ok, excBind_error] at hv
      | some times =>
        have hmal : ∀ p ∈ times.zip pressures, p.1 ≠ TimeVal.malformed := by
          intro p hpz
          exact h p.1 (by simp [hourlyTimes, hh, htm]; exact (List.of_mem_zip hpz).1)
        cases hpast : filterWindow (now - day_secs) now (times.zip pressures) with
        | error e =>
          have hs : pressureRule data now = .error e := by
            rw [pressureRule, hh]
            simp [getKey, hp, htm, hpast, excBind_ok, excBind_error]
          rw [hs] at hv
          injection hv with hv2
          subst hv2
          rcases filterWindow_error_cases _ _ hpast with h1 | ⟨_, p', hp', hm⟩
          · exact PyErr.noConfusion h1
          · exact hmal p' hp' hm
        | ok past =>
          cases hfut : filterWindow now (now + day_secs) (times.zip pressures) with
          | error e =>
            have hs : pressureRule data now = .error e := by
              rw [pressureRule, hh]
              simp [getKey, hp, htm, hpast, hfut, excBind_ok, excBind_error]
            rw [hs] at hv
            injection hv with hv2
            subst hv2
            rcases filterWindow_error_cases _ _ hfut with h1 | ⟨_, p', hp', hm⟩
            · exact PyErr.noConfusion h1
            · exact hmal p' hp' hm
          | ok future =>
            rw [pressureRule, hh] at hv
            simp only [getKey, hp, htm, hpast, hfut, excBind_ok, excBind_error] at hv
            split_ifs at hv

theorem humidityRule_ne_value {data : Forecast} {now : Int}
    (h : noMalformedHourly data) : humidityRule data now ≠ .error .valueError := by
  intro hv
  cases hh : data.hourly with
  | none => rw [humidityRule, hh] at hv; simp [getKey, excBind_error] at hv
  | some hourly =>
    cases hp : hourly.relative_humidity_2m with
    | none => rw [humidityRule, hh] at hv; simp [getKey, hp, excBind_ok, excBind_error] at hv
    | some hums =>
      cases htm : hourly.time with
      | none => rw [humidityRule, hh] at hv; simp [getKey, hp, htm, excBind_ok, excBind_error] at hv
      | some times =>
        have hmal : ∀ p ∈ times.zip hums, p.1 ≠ TimeVal.malformed := by
          intro p hpz
          exact h p.1 (by simp [hourlyTimes, hh, htm]; exact (List.of_mem_zip hpz).1)
        cases hpast : filterWindow (now - day_secs) now (times.zip hums) with
        | error e =>
          have hs : humidityRule data now = .error e := by
            rw [humidityRule, hh]
            simp [getKey, hp, htm, hpast, excBind_ok, excBind_error]
          rw [hs] at hv
          injection hv with hv2
          subst hv2
          rcases filterWindow_error_cases _ _ hpast with h1 | ⟨_, p', hp', hm⟩
          · exact PyErr.noConfusion h1
          · exact hmal p' hp' hm
        | ok past =>
          rw [humidityRule, hh] at hv
          simp only [getKey, hp, htm, hpast, excBind_ok, excBind_error] at hv
          split_ifs at hv

theorem temperatureRule_ne_value (data : Forecast) :
    temperatureRule data ≠ .error .valueError := by
  intro hv
  cases hd : data.daily with
  | none => rw [temperatureRule, hd] at hv; simp [getKey, excBind_error] at hv
  | some daily =>
    cases ht : daily.temperature_2m_max with
    | none => rw [temperatureRule, hd] at hv; simp [getKey, ht, excBind_ok, excBind_error] at hv
    | some tmax =>
      cases h1 : tmax[1]? with
      | none =>
        rw [temperatureRule, hd] at hv
        simp [getKey, getIndex, ht, h1, excBind_ok, excBind_error] at hv
      | some today =>
        cases h0 : tmax[0]? with
        | none =>
          rw [temperatureRule, hd] at hv
          simp [getKey, getIndex, ht, h1, h0, excBind_ok, excBind_error] at hv
        | some yesterday =>
          rw [temperatureRule, hd] at hv
          simp only [getKey, getIndex, ht, h1, h0, excBind_ok, excBind_error] at hv
          split_ifs at hv

/-! ## Concrete snapshots used by counterexamples and witnesses -/

/-- A snapshot whose only flaw is one unparseable hourly timestamp string. -/
def badTimeSnapshot : Forecast :=
  { hourly := some { time := some [.malformed], surface_pressure := some [1000],
                     relative_humidity_2m := none }
    daily := none, geo_forecast := none, solar_wind_speed := none }

/-- A nonempty snapshot on which no rule fires and no rational arithmetic is
reached: the daily block is present but its max-temperature list is empty. -/
def dailyEmpty : Forecast :=
  { hourly := none, daily := some { temperature_2m_max := some [] }
    geo_forecast := none, solar_wind_speed := none }

/-- The all-absent snapshot produced when every adapter returned `{}`. -/
def emptySnapshot : Forecast :=
  { hourly := none, daily := none, geo_forecast := none, solar_wind_speed := none }

/-! ## C1 — exception handling inside the evaluator -/

/-- If rule evaluation aborts with an exception, that exception is a
`ValueError` (every `KeyError`/`IndexError`/`TypeError` of rules 1-3 and every
exception of rules 4-5 is caught in place). -/
theorem analyzeRisks_error {data : Forecast} {now : Int} {e : PyErr}
    (h : analyzeRisks data now = .error e) : e = .valueError := by
  cases h1 : catchNarrow (pressureRule data now) with
  | error e1 =>
    have hs : analyzeRisks data now = .error e1 := by
      simp [analyzeRisks, h1, excBind_error]
    rw [hs] at h
    injection h with h2
    exact h2 ▸ catchNarrow_error h1
  | ok v1 =>
    cases h2 : catchNarrow (temperatureRule data) with
    | error e2 =>
      have hs : analyzeRisks data now = .error e2 := by
        simp [analyzeRisks, h1, h2, excBind_ok, excBind_error]
      rw [hs] at h
      injection h with h3
      exact h3 ▸ catchNarrow_error h2
    | ok v2 =>
      cases h3 : catchNarrow (humidityRule data now) with
      | error e3 =>
        have hs : analyzeRisks data now = .error e3 := by
          simp [analyzeRisks, h1, h2, h3, excBind_ok, excBind_error]
        rw [hs] at h
        injection h with h4
        exact h4 ▸ catchNarrow_error h3
      | ok v3 =>
        have hs : analyzeRisks data now =
            .ok (v1.toList ++ v2.toList ++ v3.toList ++
              (catchAll (geomagneticRule data now)).toList ++ (solarRule data).toList) := by
          simp [analyzeRisks, h1, h2, h3, excBind_ok]
        rw [hs] at h
        simp at h

/-- C1, part of the amended claim: when every hourly timestamp string parses,
no exception at all escapes rule evaluation. -/
theorem analyzeRisks_ok_of_noMalformed (data : Forecast) (now : Int)
    (h : noMalformedHourly data) : ∃ risks, analyzeRisks data now = .ok risks := by
  obtain ⟨v1, h1⟩ := catchNarrow_ok_of_ne_value (@pressureRule_ne_value data now h)
  obtain ⟨v2, h2⟩ := catchNarrow_ok_of_ne_value (temperatureRule_ne_value data)
  obtain ⟨v3, h3⟩ := catchNarrow_ok_of_ne_value (@humidityRule_ne_value data now h)
  have hs : analyzeRisks data now =
      .ok (v1.toList ++ v2.toList ++ v3.toList ++
        (catchAll (geomagneticRule data now)).toList ++ (solarRule data).toList) := by
    simp [analyzeRisks, h1, h2, h3, excBind_ok]
  exact ⟨_, hs⟩

/-- C1 (amended): any `KeyError`, `IndexError` or `TypeError` in rules 1-3 and
any exception in rules 4-5 is caught, the failing rule contributing no
finding; the one escape hatch is a `ValueError` — e.g. from an unparseable
hourly timestamp string in the pressure or humidity rule — which aborts the
whole evaluation.  Formally: an escaping exception is necessarily a
`ValueError`, and if no hourly timestamp is malformed, evaluation always runs
to completion. -/
theorem c1_rule_exceptions (data : Forecast) (now : Int) :
    (∀ e, analyzeRisks data now = .error e → e = PyErr.valueError) ∧
    (noMalformedHourly data → ∃ risks, analyzeRisks data now = .ok risks) := by
  constructor
  · intro e he
    exact analyzeRisks_error he
  · intro h
    exact analyzeRisks_ok_of_noMalformed data now h

/-- C1 witness: on a snapshot with a present-but-incomplete daily block (and
parseable — indeed absent — hourly timestamps), evaluation completes. -/
theorem c1_rule_exceptions_witness :
    ∃ risks, analyzeRisks dailyEmpty 0 = Except.ok risks :=
  (c1_rule_exceptions dailyEmpty 0).2 (by decide)

/-- C1 counterexample to the claim as stated: one unparseable hourly timestamp
string makes the pressure rule raise `ValueError`, which the narrow
`except (KeyError, IndexError, TypeError)` does not catch, so the exception
escapes `analyze_data_and_form_message` — remaining rules never run and no
message is produced. -/
theorem c1_counterexample :
    analyze_data_and_form_message badTimeSnapshot 0 = Except.error PyErr.valueError := by
  decide

/-! ## C3 — the pressure rule at the Medium boundary -/

/-- Hourly data whose trailing-24h pressure window is `[1000]` and next-24h
window is `[1004]` (one reading an hour ago, one an hour ahead). -/
def pressureBoundary : Forecast :=
  { hourly := some { time := some [.aware (-3600), .aware 3600],
                     surface_pressure := some [1000, 1004], relative_humidity_2m := none }
    daily := none, geo_forecast := none, solar_wind_speed := none }

/-- Same windows, but with the future reading chosen so that the delta is
exactly 3 mmHg: `1004 - 1000` is replaced by `3 / 0.750062`. -/
def pressureExactThree : Forecast :=
  { hourly := some { time := some [.aware (-3600), .aware 3600],
                     surface_pressure := some [1000, 1000 + 1500000/375031],
                     relative_humidity_2m := none }
    daily := none, geo_forecast := none, solar_wind_speed := none }

/-- C3 counterexample to the claim as stated: with `past = [1000]` and
`future = [1004]` the delta is `4 * 0.750062 = 3.000248 mmHg`, which strictly
exceeds 3, so the pressure rule produces a Medium finding — not "no finding"
as the claim predicts (`round(3.000248) = 3` in the rendered text). -/
theorem c3_counterexample :
    pressureRule pressureBoundary 0 =
      Except.ok (some (Severity.medium,
        "заметный перепад давления (изменение на 3 мм рт. ст. за сутки)")) := by
  with_unfolding_all rfl

/-- C3 (amended): the delta for `past = [1000]`, `future = [1004]` is
`3.000248 mmHg`, strictly above the Medium threshold, so the rule fires a
Medium finding; the comparison is indeed strict — with the future value
adjusted so that the delta is exactly 3 mmHg, no finding is produced. -/
theorem c3_pressure_boundary :
    (1004 - 1000 : ℚ) * hpa_to_mmhg = 3000248/1000000 ∧
    pressureRule pressureBoundary 0 =
      Except.ok (some (Severity.medium,
        "заметный перепад давления (изменение на 3 мм рт. ст. за сутки)")) ∧
    (1000 + 1500000/375031 - 1000 : ℚ) * hpa_to_mmhg = 3 ∧
    pressureRule pressureExactThree 0 = Except.ok none := by
  refine ⟨by norm_num [hpa_to_mmhg], ?_, by norm_num [hpa_to_mmhg], ?_⟩ <;>
    with_unfolding_all rfl

/-! ## C2 — the geomagnetic rule's time window -/

/-- Does a timestamp parse to an offset-aware instant? -/
def isAware : TimeVal → Bool
  | .aware _ => true
  | _ => false

/-- The instant a parseable timestamp denotes. -/
def timeOf : TimeVal → Int
  | .aware t => t
  | .naive t => t
  | .malformed => 0

/-- Maximum of two rationals, written with an explicit comparison. -/
def qmax (a b : ℚ) : ℚ := if a ≤ b then b else a

theorem qmax_eq_max (a b : ℚ) : qmax a b = max a b := (max_def a b).symm

/-- Spec-side description of what rule 4 computes: the maximum Kp value
(floored at 0) over the entries whose timestamp is before `limit` — with no
lower bound on the timestamp. -/
def maxKpWithin (entries : List GeoEntry) (limit : Int) : ℚ :=
  ((entries.filter (fun e => decide (timeOf e.time_tag < limit))).map
    GeoEntry.kp_value).foldl qmax 0

/-- The `max_kp` loop is the fold of `qmax` over the kp values of the entries
with timestamp before `future_limit` (offset-aware entries only; a naive or
malformed one raises). -/
theorem kpLoop_eq_max (limit : Int) :
    ∀ (entries : List GeoEntry) (m : ℚ), (∀ e ∈ entries, isAware e.time_tag = true) →
      kpLoop limit entries m =
        .ok (((entries.filter (fun e => decide (timeOf e.time_tag < limit))).map
          GeoEntry.kp_value).foldl qmax m) := by
  intro entries
  induction entries with
  | nil => intro m _; rfl
  | cons e rest ih =>
    intro m hall
    have he := hall e (List.mem_cons_self _ _)
    have hrest : ∀ x ∈ rest, isAware x.time_tag = true :=
      fun x hx => hall x (List.mem_cons_of_mem _ hx)
    cases htag : e.time_tag with
    | naive tt => rw [htag] at he; simp [isAware] at he
    | malformed => rw [htag] at he; simp [isAware] at he
    | aware tt =>
      have hstep : kpLoop limit (e :: rest) m =
          kpLoop limit rest (if tt < limit ∧ m < e.kp_value then e.kp_value else m) := by
        simp [kpLoop, htag]
      by_cases hlt : tt < limit
      · have hsel : (if tt < limit ∧ m < e.kp_value then e.kp_value else m) =
            qmax m e.kp_value := by
          rcases lt_or_le m e.kp_value with hmk | hmk
          · simp [hlt, hmk, qmax, le_of_lt hmk]
          · rcases eq_or_lt_of_le hmk with hmk' | hmk'
            · simp [qmax, hlt, hmk', le_of_eq hmk'.symm]
            · simp [hlt, not_lt.mpr hmk, qmax, not_le.mpr hmk']
        rw [hstep, hsel, ih _ hrest]
        congr 1
        simp [List.filter_cons, htag, timeOf, hlt]
      · have hsel : (if tt < limit ∧ m < e.kp_value then e.kp_value else m) = m := by
          simp [hlt]
        rw [hstep, hsel, ih _ hrest]
        congr 1
        simp [List.filter_cons, htag, timeOf, hlt]

/-- C2 (amended): for offset-aware-timestamped geomagnetic entries, rule 4
considers exactly the entries whose timestamp is strictly before
`now + 24h` — entries in the past included — takes the maximum Kp among them
(floored at 0), and fires High at `≥ 5`, Medium at `≥ 3`, else nothing. -/
theorem c2_geomagnetic_window (data : Forecast) (now : Int) (entries : List GeoEntry)
    (hg : data.geo_forecast = some entries)
    (ha : ∀ e ∈ entries, isAware e.time_tag = true) :
    geomagneticRule data now =
      Except.ok
        (if 5 ≤ maxKpWithin entries (now + day_secs) then
          some (Severity.high, "ожидается магнитная буря (Kp-индекс до " ++
            toString (pyTrunc (maxKpWithin entries (now + day_secs))) ++ ")")
        else if 3 ≤ maxKpWithin entries (now + day_secs) then
          some (Severity.medium, "повышенная геомагнитная активность (Kp-индекс до " ++
            toString (pyTrunc (maxKpWithin entries (now + day_secs))) ++ ")")
        else none) := by
  have hk := kpLoop_eq_max (now + day_secs) entries 0 ha
  simp only [geomagneticRule, hg, Option.getD_some, hk, excBind_ok, maxKpWithin]
  split_ifs <;> rfl

/-- A placeholder status cell (its content never influences any rule). -/
def statusCell : Cell := { asFloat := none, asTime := .malformed }

/-- An entry one hour in the past with Kp = 6. -/
def pastEntry : GeoEntry :=
  { time_tag := .aware (-3600), kp_value := 6, observation_status := statusCell }

/-- An entry one hour in the future with Kp = 4. -/
def futureEntry : GeoEntry :=
  { time_tag := .aware 3600, kp_value := 4, observation_status := statusCell }

/-- A geomagnetic series whose only entry lies one hour in the past. -/
def geoPastSnapshot : Forecast :=
  { hourly := none, daily := none, geo_forecast := some [pastEntry]
    solar_wind_speed := none }

/-- A geomagnetic series whose only entry lies one hour in the future. -/
def geoFutureSnapshot : Forecast :=
  { hourly := none, daily := none, geo_forecast := some [futureEntry]
    solar_wind_speed := none }

/-- C2 counterexample to the claim as stated: the only entry lies strictly in
the past (one hour before `now = 0`), so by the claim the rule should consider
no entry and produce no finding; the code produces a High finding from it,
because the loop checks only `forecast_time < future_limit` with no lower
bound. -/
theorem c2_counterexample :
    geomagneticRule geoPastSnapshot 0 =
      Except.ok (some (Severity.high, "ожидается магнитная буря (Kp-индекс до 6)")) ∧
    timeOf (TimeVal.aware (-3600)) < 0 := by
  constructor
  · with_unfolding_all rfl
  · decide

/-- C2 witness: a future entry with Kp = 4 yields the Medium classification of
the amended rule description. -/
theorem c2_geomagnetic_window_witness :
    geomagneticRule geoFutureSnapshot 0 =
      Except.ok
        (if 5 ≤ maxKpWithin [futureEntry] (0 + day_secs) then
          some (Severity.high, "ожидается магнитная буря (Kp-индекс до " ++
            toString (pyTrunc (maxKpWithin [futureEntry] (0 + day_secs))) ++ ")")
        else if 3 ≤ maxKpWithin [futureEntry] (0 + day_secs) then
          some (Severity.medium, "повышенная геомагнитная активность (Kp-индекс до " ++
            toString (pyTrunc (maxKpWithin [futureEntry] (0 + day_secs))) ++ ")")
        else none) :=
  c2_geomagnetic_window geoFutureSnapshot 0 [futureEntry] rfl (by decide)

/-! ## C7 — the solar wind rule -/

/-- A one-sample series with a negative speed value. -/
def solarNegSnapshot : Forecast :=
  { hourly := none, daily := none, geo_forecast := none, solar_wind_speed := some [-1] }

/-- Twelve unit samples. -/
def onesTwelve : List ℚ := [1, 1, 1, 1, 1, 1, 1, 1, 1, 1, 1, 1]

/-- A series of exactly 12 samples. -/
def solarTwelveSnapshot : Forecast :=
  { hourly := none, daily := none, geo_forecast := none,
    solar_wind_speed := some onesTwelve }

/-- C7 (amended): the solar rule produces at most the single Low finding, and
produces it exactly when either the series has ≥ 12 samples and the mean of
the last 12 exceeds 1.5 times the mean of the whole series, or the series is
nonempty with fewer than 12 samples and a negative sum (then `recent_avg` is
the literal `0`, which still wins the comparison against a negative
`historical_avg * 1.5`). -/
theorem c7_solar_rule (data : Forecast) (sw : List ℚ)
    (hs : data.solar_wind_speed = some sw) :
    (solarRule data = none ∨
      solarRule data = some (Severity.low, "усиление солнечного ветра")) ∧
    (solarRule data = some (Severity.low, "усиление солнечного ветра") ↔
      ((12 ≤ sw.length ∧
          (sw.sum / (sw.length : ℚ)) * (3/2) < (sw.drop (sw.length - 12)).sum / 12) ∨
        (sw ≠ [] ∧ sw.length < 12 ∧ sw.sum < 0))) := by
  have hrw : solarRule data = solarRuleOn sw := by rw [solarRule, hs]; rfl
  constructor
  · rw [hrw]; unfold solarRuleOn
    split_ifs <;> simp
    all_goals exact le_or_lt _ _
  · rw [hrw]
    by_cases hne : sw = []
    · subst hne; simp [solarRuleOn]
    · have hlen : (0 : ℚ) < (sw.length : ℚ) := by
        have h0 : 0 < sw.length := List.length_pos.mpr hne
        exact_mod_cast h0
      by_cases h12 : 12 ≤ sw.length
      · have h12' : ¬ sw.length < 12 := not_lt.mpr h12
        simp only [solarRuleOn, if_pos hne, if_pos h12]
        constructor
        · intro h0
          by_cases hc : (sw.sum / (sw.length : ℚ)) * (3/2) <
              (sw.drop (sw.length - 12)).sum / 12
          · exact Or.inl ⟨h12, hc⟩
          · rw [if_neg hc] at h0; exact Option.noConfusion h0
        · rintro (⟨_, hc⟩ | ⟨_, hlt', _⟩)
          · rw [if_pos hc]
          · exact absurd hlt' h12'
      · have hlt : sw.length < 12 := not_le.mp h12
        have hzero : ((sw.sum / (sw.length : ℚ)) * (3/2) < 0) ↔ sw.sum < 0 := by
          constructor
          · intro h0
            have hd : sw.sum / (sw.length : ℚ) < 0 := by nlinarith
            rw [div_lt_iff₀ hlen, zero_mul] at hd
            exact hd
          · intro h0
            have hd : sw.sum / (sw.length : ℚ) < 0 := by
              rw [div_lt_iff₀ hlen, zero_mul]; exact h0
            nlinarith
        simp only [solarRuleOn, if_pos hne, if_neg h12]
        constructor
        · intro h0
          by_cases hc : (sw.sum / (sw.length : ℚ)) * (3/2) < 0
          · exact Or.inr ⟨hne, hlt, hzero.mp hc⟩
          · rw [if_neg hc] at h0; exact Option.noConfusion h0
        · rintro (⟨h12a, _⟩ | ⟨_, _, hsum⟩)
          · exact absurd h12a h12
          · rw [if_pos (hzero.mpr hsum)]

/-- C7 witness: a 12-sample constant series satisfies the amended
characterisation (and yields no finding, the ratio being 1). -/
theorem c7_solar_rule_witness :
    (solarRule solarTwelveSnapshot = none ∨
      solarRule solarTwelveSnapshot = some (Severity.low, "усиление солнечного ветра")) ∧
    (solarRule solarTwelveSnapshot = some (Severity.low, "усиление солнечного ветра") ↔
      ((12 ≤ onesTwelve.length ∧
          (onesTwelve.sum / (onesTwelve.length : ℚ)) * (3/2) <
            (onesTwelve.drop (onesTwelve.length - 12)).sum / 12) ∨
        (onesTwelve ≠ [] ∧ onesTwelve.length < 12 ∧ onesTwelve.sum < 0))) :=
  c7_solar_rule solarTwelveSnapshot onesTwelve rfl

/-- C7 counterexample to the claim as stated: a single-sample series `[-1]`
has fewer than 12 samples — by the claim the rule should produce no finding —
yet the rule fires: `recent_avg = 0` (the `else 0` branch) and
`0 > (-1) * 1.5` holds. -/
theorem c7_counterexample :
    solarRule solarNegSnapshot = some (Severity.low, "усиление солнечного ветра") ∧
    List.length [(-1 : ℚ)] < 12 := by
  constructor
  · with_unfolding_all rfl
  · decide

/-! ## C4 — geomagnetic response parsing -/

/-- What one NOAA row contributes when parsing succeeds: a row shorter than 3
is skipped (`none`), a row of length ≥ 3 yields the entry built from its
first three cells, provided its kp cell parses as a float. -/
def geoRowEntry (row : List Cell) : Option GeoEntry :=
  if h : 3 ≤ row.length then
    (row.get ⟨1, by omega⟩).asFloat.map fun kp =>
      { time_tag := (row.get ⟨0, by omega⟩).asTime, kp_value := kp
        observation_status := row.get ⟨2, by omega⟩ }
  else none

theorem processGeoRows_ok :
    ∀ body : List (List Cell),
      (∀ row ∈ body, ¬ 3 ≤ row.length ∨ (row[1]?.bind Cell.asFloat).isSome = true) →
      processGeoRows body = .ok (body.filterMap geoRowEntry) := by
  intro body
  induction body with
  | nil => intro _; rfl
  | cons row rest ih =>
    intro hall
    have hrest := fun r hr => hall r (List.mem_cons_of_mem _ hr)
    by_cases h3 : 3 ≤ row.length
    · rcases hall row (List.mem_cons_self _ _) with hbad | hsome
      · exact absurd h3 hbad
      · have h1lt : 1 < row.length := by omega
        have hget : row[1]? = some (row.get ⟨1, h1lt⟩) := by
          simp [List.getElem?_eq_getElem h1lt, List.get_eq_getElem]
        rw [hget] at hsome
        have hsome' : (row.get ⟨1, h1lt⟩).asFloat.isSome = true := hsome
        obtain ⟨kp, hkp⟩ := Option.isSome_iff_exists.mp hsome'
        simp only [processGeoRows, dif_pos h3, hkp, ih hrest, excBind_ok,
          List.filterMap_cons, geoRowEntry, Option.map_some]
        rfl
    · simp only [processGeoRows, dif_neg h3, ih hrest, List.filterMap_cons,
        geoRowEntry, dif_neg h3]

theorem processGeoRows_err :
    ∀ body : List (List Cell),
      (∃ row ∈ body, 3 ≤ row.length ∧ row[1]?.bind Cell.asFloat = none) →
      processGeoRows body = .error .valueError := by
  intro body
  induction body with
  | nil => rintro ⟨row, hmem, _⟩; exact absurd hmem (List.not_mem_nil row)
  | cons row rest ih =>
    rintro ⟨row', hmem, h3', hnone⟩
    rcases List.mem_cons.mp hmem with rfl | hmem'
    · have h1lt : 1 < row'.length := by omega
      have hget : row'[1]? = some (row'.get ⟨1, h1lt⟩) := by
        simp [List.getElem?_eq_getElem h1lt, List.get_eq_getElem]
      rw [hget] at hnone
      have hnone' : (row'.get ⟨1, h1lt⟩).asFloat = none := hnone
      simp only [processGeoRows, dif_pos h3', hnone']
    · have htail := ih ⟨row', hmem', h3', hnone⟩
      by_cases h3 : 3 ≤ row.length
      · cases hflt : (row.get ⟨1, by omega⟩).asFloat with
        | none => simp only [processGeoRows, dif_pos h3, hflt]
        | some kp => simp only [processGeoRows, dif_pos h3, hflt, htail, excBind_error]
      · simp only [processGeoRows, dif_neg h3, htail]

/-- C4 (amended): after discarding the header row, each row of length ≥ 3
whose kp cell parses as a float yields its entry, and rows shorter than 3 are
skipped; but a single row of length ≥ 3 whose kp cell does not parse raises a
`ValueError` that the geomagnetic adapter does not catch (its `except` clause
covers only `aiohttp.ClientError`), invalidating the whole series and
propagating to the caller. -/
theorem c4_geo_parse (rows : List (List Cell)) :
    ((∀ row ∈ rows.drop 1, ¬ 3 ≤ row.length ∨ (row[1]?.bind Cell.asFloat).isSome = true) →
      get_noaa_geo_data (.response rows) =
        .ok (some ((rows.drop 1).filterMap geoRowEntry))) ∧
    ((∃ row ∈ rows.drop 1, 3 ≤ row.length ∧ row[1]?.bind Cell.asFloat = none) →
      get_noaa_geo_data (.response rows) = .error .valueError) := by
  constructor
  · intro hall
    simp only [get_noaa_geo_data, processGeoRows_ok _ hall, Except.map]
  · intro hex
    simp only [get_noaa_geo_data, processGeoRows_err _ hex, Except.map]

/-- A cell whose string parses as neither a float nor a timestamp. -/
def badFloatCell : Cell := { asFloat := none, asTime := .malformed }

/-- A cell holding a timestamp string (not a float). -/
def timeCell : Cell := { asFloat := none, asTime := .aware 0 }

/-- A cell holding the float string "5". -/
def goodKpCell : Cell := { asFloat := some 5, asTime := .malformed }

/-- A response body: header, then one row whose kp cell does not parse. -/
def badGeoBody : List (List Cell) := [[], [timeCell, badFloatCell, statusCell]]

/-- A response body: header, one good row, one short row. -/
def goodGeoBody : List (List Cell) :=
  [[], [timeCell, goodKpCell, statusCell], [timeCell]]

/-- C4 counterexample to the claim as stated: one malformed row of length ≥ 3
does not get skipped — the whole parse raises `ValueError` to the caller. -/
theorem c4_counterexample :
    get_noaa_geo_data (.response badGeoBody) = Except.error PyErr.valueError ∧
    3 ≤ ([timeCell, badFloatCell, statusCell] : List Cell).length := by
  exact ⟨rfl, by decide⟩

/-- C4 witness: with every kept row parseable, the adapter returns exactly the
entries of the rows of length ≥ 3, the short row skipped. -/
theorem c4_geo_parse_witness :
    get_noaa_geo_data (.response goodGeoBody) =
      .ok (some ((goodGeoBody.drop 1).filterMap geoRowEntry)) :=
  (c4_geo_parse goodGeoBody).1 (by decide)

/-! ## C5 — aggregation resilience -/

/-- A minimal successful Open-Meteo contribution. -/
def sampleWeather : WeatherPart :=
  { hourly := { time := some [], surface_pressure := some [], relative_humidity_2m := some [] }
    daily := { temperature_2m_max := some [] } }

/-- C5 (amended): when every adapter *returns* (success or `{}` after a caught
`aiohttp.ClientError`), aggregation succeeds and the snapshot carries exactly
the returned fields; and when all three return `{}`, the snapshot is
all-absent and downstream produces the fixed "data unavailable" message.  The
raising case of the original claim is refuted by `c5_counterexample`. -/
theorem c5_aggregation (w : Option WeatherPart) (g : Option (List GeoEntry))
    (s : Option (List ℚ)) (now : Int) :
    get_forecast_data (.ok w) (.ok g) (.ok s) = .ok (mergeData w g s) ∧
    (mergeData w g s).hourly = w.map WeatherPart.hourly ∧
    (mergeData w g s).daily = w.map WeatherPart.daily ∧
    (mergeData w g s).geo_forecast = g ∧
    (mergeData w g s).solar_wind_speed = s ∧
    get_noaa_geo_data GeoFetch.clientError = .ok none ∧
    get_forecast_data (.ok none) (.ok none) (.ok none) = .ok emptySnapshot ∧
    analyze_data_and_form_message emptySnapshot now = .ok unavailableMessage :=
  ⟨rfl, rfl, rfl, rfl, rfl, rfl, rfl, rfl⟩

/-- C5 counterexample to the claim as stated: the atmospheric and solar-wind
adapters succeed, but the geomagnetic adapter raises (here: the `ValueError`
of its parse comprehension); `asyncio.gather` re-raises, so `get_forecast_data`
returns no snapshot at all — the successful adapters' fields are lost. -/
theorem c5_counterexample :
    get_forecast_data (.ok (some sampleWeather))
        (get_noaa_geo_data (.response badGeoBody)) (.ok (some [400])) =
      Except.error PyErr.valueError := rfl

/-! ## C9 — subscriber location update -/

/-- C9: updating an existing subscriber's location replaces city, latitude,
longitude and timezone, reactivates the subscription, and leaves both
`notification_time` and `chat_id` untouched; no row is added. -/
theorem c9_location_update (db : List UserRec) (uid cid : Int) (city : String)
    (lat lon : ℚ) (tz : String) (r : UserRec) (hr : r ∈ db) (hid : r.user_id = uid) :
    (add_or_update_user db uid cid city lat lon tz).length = db.length ∧
    ∃ r' ∈ add_or_update_user db uid cid city lat lon tz,
      r'.user_id = uid ∧ r'.city = city ∧ r'.lat = lat ∧ r'.lon = lon ∧
      r'.timezone = tz ∧ r'.is_active = 1 ∧
      r'.notification_time = r.notification_time ∧ r'.chat_id = r.chat_id := by
  have hany : db.any (fun x => x.user_id == uid) = true := by
    rw [List.any_eq_true]
    exact ⟨r, hr, by simp [hid]⟩
  unfold add_or_update_user
  rw [if_pos hany]
  constructor
  · simp
  · refine ⟨upsertRow uid city lat lon tz r, List.mem_map_of_mem _ hr, ?_⟩
    simp [upsertRow, hid]

/-- An existing subscriber row with a customised notification time. -/
def dbUser : UserRec :=
  { user_id := 7, chat_id := 99, city := "Москва", lat := 0, lon := 0
    timezone := "Europe/Moscow", is_active := 0, notification_time := "09:30" }

/-- C9 witness: an inactive subscriber with notification time "09:30" keeps it
(and the chat id) through a location update and becomes active. -/
theorem c9_location_update_witness :
    (add_or_update_user [dbUser] 7 100 "Санкт-Петербург" 1 2 "Europe/Moscow").length =
      [dbUser].length ∧
    ∃ r' ∈ add_or_update_user [dbUser] 7 100 "Санкт-Петербург" 1 2 "Europe/Moscow",
      r'.user_id = 7 ∧ r'.city = "Санкт-Петербург" ∧ r'.lat = 1 ∧ r'.lon = 2 ∧
      r'.timezone = "Europe/Moscow" ∧ r'.is_active = 1 ∧
      r'.notification_time = dbUser.notification_time ∧ r'.chat_id = dbUser.chat_id :=
  c9_location_update [dbUser] 7 100 "Санкт-Петербург" 1 2 "Europe/Moscow" dbUser
    (List.mem_singleton.mpr rfl) rfl

/-! ## Sorting lemmas for the composer (C6) -/

/-- Descending order on findings by their severity rank. -/
def DescOrd (a b : Risk) : Prop := risk_map b.1 ≤ risk_map a.1

theorem risk_map_inj {a b : Severity} (h : risk_map a = risk_map b) : a = b := by
  cases a <;> cases b <;> first | rfl | simp [risk_map] at h

theorem insertDesc_spec (x : Risk) :
    ∀ acc : List Risk, List.Pairwise DescOrd acc →
      ∃ pre post, acc = pre ++ post ∧ insertDesc x acc = pre ++ x :: post ∧
        (∀ y ∈ pre, risk_map x.1 ≤ risk_map y.1) ∧
        (∀ y ∈ post, risk_map y.1 < risk_map x.1) := by
  intro acc
  induction acc with
  | nil =>
    intro _
    exact ⟨[], [], rfl, rfl, by simp, by simp⟩
  | cons y ys ih =>
    intro hp
    by_cases hlt : risk_map y.1 < risk_map x.1
    · refine ⟨[], y :: ys, rfl, by simp [insertDesc, hlt], by simp, ?_⟩
      intro z hz
      rcases List.mem_cons.mp hz with rfl | hz'
      · exact hlt
      · exact lt_of_le_of_lt (List.rel_of_pairwise_cons hp hz') hlt
    · obtain ⟨pre, post, hacc, hins, hpre, hpost⟩ := ih (List.Pairwise.of_cons hp)
      refine ⟨y :: pre, post, by simp [hacc], ?_, ?_, hpost⟩
      · simp [insertDesc, hlt, hins]
      · intro z hz
        rcases List.mem_cons.mp hz with rfl | hz'
        · exact not_lt.mp hlt
        · exact hpre z hz'

theorem insertDesc_pairwise (x : Risk) (acc : List Risk)
    (h : List.Pairwise DescOrd acc) : List.Pairwise DescOrd (insertDesc x acc) := by
  obtain ⟨pre, post, hacc, hins, hpre, hpost⟩ := insertDesc_spec x acc h
  rw [hacc, List.pairwise_append] at h
  obtain ⟨hp1, hp2, hrel⟩ := h
  rw [hins, List.pairwise_append]
  refine ⟨hp1, ?_, ?_⟩
  · rw [List.pairwise_cons]
    exact ⟨fun z hz => le_of_lt (hpost z hz), hp2⟩
  · intro a ha b hb
    rcases List.mem_cons.mp hb with rfl | hb'
    · exact hpre a ha
    · exact hrel a ha b hb'

theorem insertDesc_perm (x : Risk) (acc : List Risk) :
    List.Perm (insertDesc x acc) (x :: acc) := by
  induction acc with
  | nil => exact List.Perm.refl _
  | cons y ys ih =>
    by_cases hlt : risk_map y.1 < risk_map x.1
    · rw [show insertDesc x (y :: ys) = x :: y :: ys from by simp [insertDesc, hlt]]
    · rw [show insertDesc x (y :: ys) = y :: insertDesc x ys from by simp [insertDesc, hlt]]
      exact (ih.cons y).trans (List.Perm.swap x y ys)

theorem insertDesc_filter (s : Severity) (x : Risk) (acc : List Risk)
    (h : List.Pairwise DescOrd acc) :
    (insertDesc x acc).filter (fun r => decide (r.1 = s)) =
      acc.filter (fun r => decide (r.1 = s)) ++ if x.1 = s then [x] else [] := by
  obtain ⟨pre, post, hacc, hins, hpre, hpost⟩ := insertDesc_spec x acc h
  rw [hins, hacc, List.filter_append, List.filter_append, List.filter_cons]
  by_cases hx : x.1 = s
  · have hpost0 : post.filter (fun r => decide (r.1 = s)) = [] := by
      rw [List.filter_eq_nil_iff]
      intro z hz
      simp only [decide_eq_true_eq]
      intro hzs
      have hzz : risk_map z.1 = risk_map x.1 := by rw [hzs, hx]
      exact absurd (hzz ▸ hpost z hz) (lt_irrefl _)
    simp [hx, hpost0]
  · simp [hx]

theorem sortLoop_pairwise : ∀ (l acc : List Risk), List.Pairwise DescOrd acc →
    List.Pairwise DescOrd (l.foldl (fun a x => insertDesc x a) acc) := by
  intro l
  induction l with
  | nil => intro acc h; exact h
  | cons x xs ih => intro acc h; exact ih _ (insertDesc_pairwise x acc h)

theorem sortLoop_perm : ∀ (l acc : List Risk),
    List.Perm (l.foldl (fun a x => insertDesc x a) acc) (acc ++ l) := by
  intro l
  induction l with
  | nil => intro acc; simp
  | cons x xs ih =>
    intro acc
    rw [List.foldl_cons]
    have h1 := ih (insertDesc x acc)
    have h2 : List.Perm (insertDesc x acc ++ xs) ((x :: acc) ++ xs) :=
      (insertDesc_perm x acc).append_right xs
    have h3 : List.Perm ((x :: acc) ++ xs) (acc ++ x :: xs) := by
      simp only [List.cons_append]
      exact List.perm_middle.symm
    exact (h1.trans h2).trans h3

theorem sortLoop_filter (s : Severity) : ∀ (l acc : List Risk),
    List.Pairwise DescOrd acc →
    (l.foldl (fun a x => insertDesc x a) acc).filter (fun r => decide (r.1 = s)) =
      acc.filter (fun r => decide (r.1 = s)) ++ l.filter (fun r => decide (r.1 = s)) := by
  intro l
  induction l with
  | nil => intro acc _; simp
  | cons x xs ih =>
    intro acc h
    rw [List.foldl_cons, ih _ (insertDesc_pairwise x acc h), insertDesc_filter s x acc h,
      List.filter_cons]
    by_cases hx : x.1 = s
    · simp [hx]
    · simp [hx]

theorem pySortDesc_pairwise (l : List Risk) : List.Pairwise DescOrd (pySortDesc l) :=
  sortLoop_pairwise l [] List.Pairwise.nil

theorem pySortDesc_perm (l : List Risk) : List.Perm (pySortDesc l) l := by
  have h := sortLoop_perm l []
  simpa [pySortDesc] using h

theorem pySortDesc_filter (l : List Risk) (s : Severity) :
    (pySortDesc l).filter (fun r => decide (r.1 = s)) =
      l.filter (fun r => decide (r.1 = s)) := by
  have h := sortLoop_filter s l [] List.Pairwise.nil
  simpa [pySortDesc] using h

theorem pySortDesc_head_max (l : List Risk) (r : Risk) (hr : r ∈ l) :
    risk_map r.1 ≤ risk_map (pySortDesc l).headI.1 := by
  have hr' : r ∈ pySortDesc l := (pySortDesc_perm l).mem_iff.mpr hr
  cases hs : pySortDesc l with
  | nil => rw [hs] at hr'; exact absurd hr' (List.not_mem_nil r)
  | cons hd tl =>
    rw [hs] at hr'
    have hp := pySortDesc_pairwise l
    rw [hs] at hp
    rcases List.mem_cons.mp hr' with rfl | hr''
    · simp [List.headI]
    · have hrel := List.rel_of_pairwise_cons hp hr''
      simpa [List.headI] using hrel

/-! ## C6 — composed message: stable descending sort and title -/

/-- C6: for nonempty findings, the composed message is the title keyed by the
first element of the stably descending-sorted list, followed by one rendered
line per finding in sorted order; the sorted list is pairwise descending in
severity, keeps the per-severity original order (stability), is a permutation
of the input, and its head carries the maximum severity present. -/
theorem c6_composer (risks : List Risk) (h : risks ≠ []) :
    formMessage risks =
      "<b>" ++ (titleFor (pySortDesc risks).headI.1 ++ (headerAfterTitle ++
        (String.join ((pySortDesc risks).map renderLine) ++ infoSuffix))) ∧
    List.Pairwise DescOrd (pySortDesc risks) ∧
    (∀ s, (pySortDesc risks).filter (fun r => decide (r.1 = s)) =
      risks.filter (fun r => decide (r.1 = s))) ∧
    List.Perm (pySortDesc risks) risks ∧
    (∀ r ∈ risks, risk_map r.1 ≤ risk_map (pySortDesc risks).headI.1) := by
  refine ⟨?_, pySortDesc_pairwise risks, fun s => pySortDesc_filter risks s,
    pySortDesc_perm risks, fun r hr => pySortDesc_head_max risks r hr⟩
  simp only [formMessage, if_neg h]

/-- One Low finding first, one High finding second. -/
def twoFindings : List Risk := [(Severity.low, "a"), (Severity.high, "b")]

/-- C6 witness: with a Low finding produced before a High one, the sorted
rendering and title still follow the High finding. -/
theorem c6_composer_witness :
    formMessage twoFindings =
      "<b>" ++ (titleFor (pySortDesc twoFindings).headI.1 ++ (headerAfterTitle ++
        (String.join ((pySortDesc twoFindings).map renderLine) ++ infoSuffix))) ∧
    List.Pairwise DescOrd (pySortDesc twoFindings) ∧
    (∀ s, (pySortDesc twoFindings).filter (fun r => decide (r.1 = s)) =
      twoFindings.filter (fun r => decide (r.1 = s))) ∧
    List.Perm (pySortDesc twoFindings) twoFindings ∧
    (∀ r ∈ twoFindings, risk_map r.1 ≤ risk_map (pySortDesc twoFindings).headI.1) :=
  c6_composer twoFindings (by decide)

/-! ## C8 and C10 — the no-findings and no-data messages -/

/-- C8: on a nonempty snapshot where rule evaluation completes with no
findings, the evaluator returns exactly the fixed positive message, which is
not the empty string. -/
theorem c8_positive_message (data : Forecast) (now : Int)
    (hne : isEmptyData data = false) (hnr : analyzeRisks data now = .ok []) :
    analyze_data_and_form_message data now = .ok positiveMessage ∧
    positiveMessage ≠ "" := by
  constructor
  · have hcond : ¬ (isEmptyData data = true) := by simp [hne]
    rw [analyze_data_and_form_message, if_neg hcond, hnr]
    rfl
  · decide

/-- C8 witness. -/
theorem c8_positive_message_witness :
    analyze_data_and_form_message dailyEmpty 0 = .ok positiveMessage ∧
    positiveMessage ≠ "" :=
  c8_positive_message dailyEmpty 0 rfl (by decide)

theorem string_data_append (a b : String) : (a ++ b).data = a.data ++ b.data := rfl

/-- A string starting with the composed-message markup is never the
"data unavailable" fallback. -/
theorem bTag_ne_unavailable (s : String) : "<b>" ++ s ≠ unavailableMessage := by
  intro h
  have hd := congrArg String.data h
  rw [string_data_append] at hd
  have h1 : ("<b>".data ++ s.data).head? = some '<' := rfl
  have h2 : unavailableMessage.data.head? = some 'Н' := rfl
  rw [hd, h2] at h1
  exact absurd (Option.some.inj h1) (by decide)

theorem formMessage_ne_unavailable (risks : List Risk) :
    formMessage risks ≠ unavailableMessage := by
  by_cases h : risks = []
  · subst h
    simp only [formMessage, if_pos rfl]
    decide
  · simp only [formMessage, if_neg h]
    exact bTag_ne_unavailable _

/-- C10: the "data unavailable" fallback is returned exactly when the merged
dict is empty (all three adapters failed); a nonempty snapshot never yields
it, and a nonempty snapshot with no findings yields the positive message. -/
theorem c10_unavailable_only_when_empty (data : Forecast) (now : Int) :
    (isEmptyData data = true →
      analyze_data_and_form_message data now = .ok unavailableMessage) ∧
    (isEmptyData data = false →
      analyze_data_and_form_message data now ≠ .ok unavailableMessage) ∧
    (isEmptyData data = false → analyzeRisks data now = .ok [] →
      analyze_data_and_form_message data now = .ok positiveMessage) := by
  refine ⟨?_, ?_, ?_⟩
  · intro he
    rw [analyze_data_and_form_message, if_pos he]
  · intro he hctr
    have hcond : ¬ (isEmptyData data = true) := by simp [he]
    rw [analyze_data_and_form_message, if_neg hcond] at hctr
    cases hr : analyzeRisks data now with
    | error e => rw [hr] at hctr; simp [Except.map] at hctr
    | ok risks =>
      rw [hr] at hctr
      simp only [Except.map] at hctr
      exact formMessage_ne_unavailable risks (Except.ok.inj hctr)
  · intro he hnr
    have hcond : ¬ (isEmptyData data = true) := by simp [he]
    rw [analyze_data_and_form_message, if_neg hcond, hnr]
    rfl

/-- C10 witness: the empty snapshot yields the unavailable message; the
nonempty `dailyEmpty` snapshot (atmospheric source present, geomagnetic calm
in the sense of contributing nothing) yields the positive message, not the
unavailable one. -/
theorem c10_unavailable_only_when_empty_witness :
    analyze_data_and_form_message emptySnapshot 0 = .ok unavailableMessage ∧
    analyze_data_and_form_message dailyEmpty 0 ≠ .ok unavailableMessage ∧
    analyze_data_and_form_message dailyEmpty 0 = .ok positiveMessage :=
  ⟨(c10_unavailable_only_when_empty emptySnapshot 0).1 rfl,
   (c10_unavailable_only_when_empty dailyEmpty 0).2.1 rfl,
   (c10_unavailable_only_when_empty dailyEmpty 0).2.2 rfl (by decide)⟩

end AcheOMeter
